import Mathlib

/-!
Verification of the weight-layout conversion core of `web-mujoco-gym`.

The repository converts a PyTorch PPO checkpoint (a mapping from string
keys to dense numeric arrays) into JSON weight bundles.  We embed the
checkpoint as an association list from keys to tensors, with tensor
values over `ℚ` standing for the floating-point payload (the conversion
performs no arithmetic on values besides rearrangement, so the carrier
is irrelevant to layout claims; the forward-pass and sampling
definitions are stated over `ℚ` and `ℝ` respectively).

Embedded source files:
* `workspace/pretrained_models/convert_weights_v2.py`
  (`extract_weights_to_json`, `test_weights`);
* `workspace/download-pretrained-humanoid.py` (`convert_to_tfjs_format`).
-/

namespace ConvertWeights

/-- A dense numeric array of one or two dimensions, as held in a
PyTorch state dict (`t1` is a vector, `t2` a matrix as a list of rows). -/
inductive Tensor
  | t1 (v : List ℚ)
  | t2 (m : List (List ℚ))
deriving DecidableEq

/-- A checkpoint / state dict: a mapping from parameter names to tensors. -/
abbrev StateDict := List (String × Tensor)

/-- Error taxonomy.  `keyError` is Python's built-in exception raised by
`state_dict[key]` on an absent key.  `missingParameterError` and
`shapeMismatchError` are the error classes named by the repository's
documentation; they are included so that statements about them can be
made, and the converter defined below is observed to produce only
`keyError`. -/
inductive PyError
  | keyError (k : String)
  | missingParameterError (k : String)
  | shapeMismatchError (layer : String) (s1 s2 : List Nat)
deriving DecidableEq

/-- `state_dict[key]`: Python dict indexing, raising `KeyError` when the
key is absent. -/
def getItem (sd : StateDict) (k : String) : Except PyError Tensor :=
  match sd.lookup k with
  | some t => .ok t
  | none => .error (.keyError k)

/-- Transpose of a matrix held as a list of rows, with the column count
read off the first row (as for a rectangular numpy array). -/
def transposeMat (m : List (List ℚ)) : List (List ℚ) :=
  (List.range (m.headD []).length).map (fun j => m.map (fun row => row.getD j 0))

/-- `tensor.T`: PyTorch transpose.  On a 1-D tensor `.T` returns the
tensor itself; on a 2-D tensor it transposes. -/
def Tensor.T : Tensor → Tensor
  | .t1 v => .t1 v
  | .t2 m => .t2 (transposeMat m)

/-- `tensor.shape` (as `list(t.shape)`), for well-formed rectangular data. -/
def Tensor.shape : Tensor → List Nat
  | .t1 v => [v.length]
  | .t2 m => [m.length, (m.headD []).length]

/-- `m` is a rectangular matrix with `r` rows and `c` columns. -/
def isRect (m : List (List ℚ)) (r c : Nat) : Prop :=
  m.length = r ∧ ∀ row ∈ m, row.length = c

instance (m : List (List ℚ)) (r c : Nat) : Decidable (isRect m r c) := by
  unfold isRect; infer_instance

/-- Architecture metadata, mirroring the `model_info` dict of
`extract_weights_to_json`. -/
structure ModelInfo where
  input_dim : Nat
  action_dim : Nat
  hidden_dim : Nat
  architecture : String
  origin : String
  actor_layers : List Nat
  critic_layers : List Nat
  activation : String
  fmt : String
deriving DecidableEq

/-- The content written to one of the converter's output files. -/
inductive FileContent
  | weights (entries : List (String × Tensor))
  | logstd (shape : List Nat) (values : Tensor)
  | info (m : ModelInfo)
deriving DecidableEq

/-- The fixed `model_info` dict of `extract_weights_to_json` (lines 71–81
of `convert_weights_v2.py`). -/
def model_info : ModelInfo :=
  { input_dim := 376, action_dim := 17, hidden_dim := 64,
    architecture := "PPO", origin := "CleanRL Humanoid-v4",
    actor_layers := [376, 64, 64, 17], critic_layers := [376, 64, 64, 1],
    activation := "tanh", fmt := "json_weights" }

/-- Lines 33–39 of `convert_weights_v2.py`: build the `actor_weights`
dict, transposing each weight matrix and passing each bias through.
Lookups happen in source-line order; the first absent key raises. -/
def actorWeights (sd : StateDict) : Except PyError (List (String × Tensor)) :=
  match getItem sd "actor_mean.0.weight" with
  | .error e => .error e
  | .ok w0 =>
  match getItem sd "actor_mean.0.bias" with
  | .error e => .error e
  | .ok b0 =>
  match getItem sd "actor_mean.2.weight" with
  | .error e => .error e
  | .ok w2 =>
  match getItem sd "actor_mean.2.bias" with
  | .error e => .error e
  | .ok b2 =>
  match getItem sd "actor_mean.4.weight" with
  | .error e => .error e
  | .ok w4 =>
  match getItem sd "actor_mean.4.bias" with
  | .error e => .error e
  | .ok b4 =>
  .ok [("dense_1_kernel", w0.T), ("dense_1_bias", b0),
       ("dense_2_kernel", w2.T), ("dense_2_bias", b2),
       ("output_kernel", w4.T), ("output_bias", b4)]

/-- Lines 47–53 of `convert_weights_v2.py`: build the `critic_weights`
dict. -/
def criticWeights (sd : StateDict) : Except PyError (List (String × Tensor)) :=
  match getItem sd "critic.0.weight" with
  | .error e => .error e
  | .ok w0 =>
  match getItem sd "critic.0.bias" with
  | .error e => .error e
  | .ok b0 =>
  match getItem sd "critic.2.weight" with
  | .error e => .error e
  | .ok w2 =>
  match getItem sd "critic.2.bias" with
  | .error e => .error e
  | .ok b2 =>
  match getItem sd "critic.4.weight" with
  | .error e => .error e
  | .ok w4 =>
  match getItem sd "critic.4.bias" with
  | .error e => .error e
  | .ok b4 =>
  .ok [("dense_1_kernel", w0.T), ("dense_1_bias", b0),
       ("dense_2_kernel", w2.T), ("dense_2_bias", b2),
       ("output_kernel", w4.T), ("output_bias", b4)]

/-- `extract_weights_to_json(state_dict, output_dir)` of
`convert_weights_v2.py`, lines 26–87.  Returns the list of files written
to the output directory, in write order, together with the exception (if
any) that aborted the run.  The file writes are interleaved with the
computation exactly as in the source: the actor bundle is written before
the critic keys are read, the critic bundle before `actor_logstd` is
read. -/
def extract_weights_to_json (sd : StateDict) :
    List (String × FileContent) × Option PyError :=
  match actorWeights sd with
  | .error e => ([], some e)
  | .ok aw =>
    let files1 := [("actor_weights.json", FileContent.weights aw)]
    match criticWeights sd with
    | .error e => (files1, some e)
    | .ok cw =>
      let files2 := files1 ++ [("critic_weights.json", FileContent.weights cw)]
      match getItem sd "actor_logstd" with
      | .error e => (files2, some e)
      | .ok ls =>
        (files2 ++ [("actor_logstd.json", FileContent.logstd ls.shape ls),
                    ("model_info.json", FileContent.info model_info)], none)

/-- The source keys read by `extract_weights_to_json`, in program order. -/
def requiredKeys : List String :=
  ["actor_mean.0.weight", "actor_mean.0.bias",
   "actor_mean.2.weight", "actor_mean.2.bias",
   "actor_mean.4.weight", "actor_mean.4.bias",
   "critic.0.weight", "critic.0.bias",
   "critic.2.weight", "critic.2.bias",
   "critic.4.weight", "critic.4.bias",
   "actor_logstd"]

/-- The first required key absent from a checkpoint, if any. -/
def firstMissing (sd : StateDict) : Option String :=
  requiredKeys.find? (fun k => (sd.lookup k).isNone)

/-! ### List helper lemmas -/

lemma map_getD_zero (f : List ℚ → ℚ) (hf : f [] = 0) :
    ∀ (l : List (List ℚ)) (j : Nat), (l.map f).getD j 0 = f (l.getD j [])
  | [], j => by simp [hf]
  | a :: l, 0 => by simp
  | a :: l, j + 1 => by simpa using map_getD_zero f hf l j

lemma range_map_getD {α : Type} (d : α) :
    ∀ (l : List α), (List.range l.length).map (fun i => l.getD i d) = l
  | [] => by simp
  | a :: l => by
      rw [List.length_cons, List.range_succ_eq_map, List.map_cons, List.map_map]
      simp only [Function.comp_def, List.getD_cons_succ, List.getD_cons_zero]
      rw [range_map_getD d l]

lemma map_eq_range_map {α β : Type} (f : α → β) (d : α) (l : List α) :
    l.map f = (List.range l.length).map (fun j => f (l.getD j d)) := by
  conv_lhs => rw [← range_map_getD d l]
  rw [List.map_map]
  rfl

lemma getD_map_range {β : Type} (f : Nat → β) (n j : Nat) (d : β) (hj : j < n) :
    ((List.range n).map f).getD j d = f j := by
  rw [List.getD_eq_getElem _ _ (by simpa using hj)]
  simp

lemma headD_eq_getD {α : Type} (l : List α) (d : α) : l.headD d = l.getD 0 d := by
  cases l <;> rfl

/-! ### Transpose lemmas -/

lemma headD_length_of_isRect {m : List (List ℚ)} {r c : Nat}
    (h : isRect m r c) (hr : 0 < r) : (m.headD []).length = c := by
  rcases m with _ | ⟨a, l⟩
  · exact absurd (h.1 ▸ hr) (by simp)
  · exact h.2 a (by simp)

lemma transposeMat_length (m : List (List ℚ)) :
    (transposeMat m).length = (m.headD []).length := by
  simp [transposeMat]

lemma transposeMat_getD (m : List (List ℚ)) (j : Nat)
    (hj : j < (m.headD []).length) :
    (transposeMat m).getD j [] = m.map (fun row => row.getD j 0) := by
  unfold transposeMat
  exact getD_map_range _ _ _ _ hj

lemma transposeMat_entry (m : List (List ℚ)) (r c i j : Nat)
    (h : isRect m r c) (hr : 0 < r) (hi : i < c) :
    ((transposeMat m).getD i []).getD j 0 = (m.getD j []).getD i 0 := by
  rw [transposeMat_getD m i (by rw [headD_length_of_isRect h hr]; exact hi)]
  exact map_getD_zero (fun row => row.getD i 0) (by simp) m j

lemma transposeMat_isRect (m : List (List ℚ)) (r c : Nat)
    (h : isRect m r c) (hr : 0 < r) : isRect (transposeMat m) c r := by
  constructor
  · rw [transposeMat_length, headD_length_of_isRect h hr]
  · intro row hrow
    unfold transposeMat at hrow
    obtain ⟨j, _, rfl⟩ := List.mem_map.mp hrow
    simpa using h.1

lemma shape_t2_transposeMat (m : List (List ℚ)) (r c : Nat)
    (h : isRect m r c) (hr : 0 < r) (hc : 0 < c) :
    (Tensor.t2 (transposeMat m)).shape = [c, r] := by
  have hlen : (transposeMat m).length = c := by
    rw [transposeMat_length, headD_length_of_isRect h hr]
  have hhead : ((transposeMat m).headD []).length = r := by
    rw [headD_eq_getD,
        transposeMat_getD m 0 (by rw [headD_length_of_isRect h hr]; exact hc)]
    simpa using h.1
  simp only [Tensor.shape]
  rw [hlen, hhead]

/-- View a list-of-rows matrix as a Mathlib matrix (entries read with
default `0` outside the stored data). -/
def toMatrix (m : List (List ℚ)) (r c : Nat) : Matrix (Fin r) (Fin c) ℚ :=
  Matrix.of fun i j => (m.getD i []).getD j 0

lemma toMatrix_transposeMat (m : List (List ℚ)) (r c : Nat)
    (h : isRect m r c) (hr : 0 < r) :
    toMatrix (transposeMat m) c r = (toMatrix m r c).transpose := by
  ext i j
  exact transposeMat_entry m r c i j h hr i.isLt

/-! ### Vector and matrix products (row-vector conventions of the source) -/

/-- Dot product of two vectors (truncating to the shorter). -/
def dot (a b : List ℚ) : ℚ := (List.zipWith (fun p q => p * q) a b).sum

/-- Element-wise vector addition. -/
def addVec (a b : List ℚ) : List ℚ := List.zipWith (fun p q => p + q) a b

/-- `torch.matmul(x, w.T)` for a row vector `x` and a matrix `w` stored
as rows: entry `j` is the dot product of `x` with row `j` of `w`. -/
def matVecT (w : List (List ℚ)) (x : List ℚ) : List ℚ :=
  w.map (fun row => dot x row)

/-- `x · k` for a row vector `x` and a matrix `k` stored as rows: entry
`j` is the dot product of `x` with column `j` of `k`. -/
def vecMatMul (x : List ℚ) (k : List (List ℚ)) : List ℚ :=
  (List.range (k.headD []).length).map
    (fun j => dot x (k.map (fun row => row.getD j 0)))

lemma transposeMat_col (w : List (List ℚ)) (r c j : Nat)
    (h : isRect w r c) (hj : j < r) :
    (transposeMat w).map (fun row => row.getD j 0) = w.getD j [] := by
  unfold transposeMat
  rw [List.map_map]
  simp only [Function.comp_def]
  rw [headD_length_of_isRect h (Nat.lt_of_le_of_lt (Nat.zero_le j) hj)]
  have hrow : (w.getD j []).length = c := by
    have hjl : j < w.length := h.1 ▸ hj
    rw [List.getD_eq_getElem _ _ hjl]
    exact h.2 _ (List.getElem_mem hjl)
  calc (List.range c).map (fun i => (w.map (fun row => row.getD i 0)).getD j 0)
      = (List.range c).map (fun i => (w.getD j []).getD i 0) := by
        apply List.map_congr_left
        intro i _
        exact map_getD_zero (fun row => row.getD i 0) (by simp) w j
    _ = w.getD j [] := by
        conv_rhs => rw [← range_map_getD (0:ℚ) (w.getD j [])]
        rw [hrow]

/-- Multiplying a row vector by the transposed matrix agrees with the
source's `matmul(x, w.T)` computed directly on the untransposed rows. -/
lemma vecMatMul_transposeMat (w : List (List ℚ)) (r c : Nat)
    (h : isRect w r c) (hr : 0 < r) (hc : 0 < c) (x : List ℚ) :
    vecMatMul x (transposeMat w) = matVecT w x := by
  have hhead : ((transposeMat w).headD []).length = r := by
    rw [headD_eq_getD,
        transposeMat_getD w 0 (by rw [headD_length_of_isRect h hr]; exact hc)]
    simpa using h.1
  unfold vecMatMul matVecT
  rw [hhead, map_eq_range_map (fun row => dot x row) [] w, h.1]
  apply List.map_congr_left
  intro j hj
  rw [List.mem_range] at hj
  rw [transposeMat_col w r c j h hj]

/-! ### Forward pass and action sampling -/

/-- Lines 97–99 of `convert_weights_v2.py` (`test_weights`): the manual
actor forward pass `h = tanh(matmul(h, W.T) + b)` for the two hidden
layers followed by a final linear layer with no activation.  The
element-wise activation (`tanh` in the source, declared as `"tanh"` in
`model_info`) is abstracted as `act`, since the layer structure is
independent of the concrete activation function. -/
def test_weights_actor (act : ℚ → ℚ) (w0 : List (List ℚ)) (b0 : List ℚ)
    (w2 : List (List ℚ)) (b2 : List ℚ) (w4 : List (List ℚ)) (b4 : List ℚ)
    (x : List ℚ) : List ℚ :=
  let h1 := (addVec (matVecT w0 x) b0).map act
  let h2 := (addVec (matVecT w2 h1) b2).map act
  addVec (matVecT w4 h2) b4

/-- Modelled from the spec: the Forward-Pass Verifier
`forward(bundle, input_vector)` — apply `h = activation(h · kernel + bias)`
for every layer except the last, the final layer applying kernel and bias
with no activation. -/
def forward_spec (act : ℚ → ℚ) :
    List (List (List ℚ) × List ℚ) → List ℚ → List ℚ
  | [], h => h
  | [(k, b)], h => addVec (vecMatMul h k) b
  | (k, b) :: l :: rest, h =>
      forward_spec act (l :: rest) ((addVec (vecMatMul h k) b).map act)

/-- Line 115 of `convert_weights_v2.py`: `actor_std = torch.exp(actor_logstd)`. -/
noncomputable def actor_std (logstd : List ℝ) : List ℝ := logstd.map Real.exp

/-- Lines 116–117 of `convert_weights_v2.py`:
`sampled_action = actor_output + actor_std * noise`, element-wise, with
the standard-normal sample supplied as the explicit `noise` argument. -/
noncomputable def sampled_action (logstd mean noise : List ℝ) : List ℝ :=
  List.zipWith (fun p q => p + q) mean
    (List.zipWith (fun p q => p * q) (actor_std logstd) noise)

lemma zipWith_mul_replicate_zero :
    ∀ (l : List ℝ) (k : Nat),
      List.zipWith (fun p q => p * q) l (List.replicate k (0 : ℝ))
        = List.replicate (min l.length k) 0
  | [], k => by simp
  | a :: l, 0 => by simp
  | a :: l, k + 1 => by
      simp [zipWith_mul_replicate_zero l k, Nat.succ_min_succ, List.replicate_succ]

lemma zipWith_add_replicate_zero :
    ∀ (l : List ℝ),
      List.zipWith (fun p q => p + q) l (List.replicate l.length (0 : ℝ)) = l
  | [] => by simp
  | a :: l => by
      simp [List.replicate_succ, zipWith_add_replicate_zero l]

/-! ### The download script's converter -/

/-- The `layer_mapping` dict of `convert_to_tfjs_format` in
`download-pretrained-humanoid.py`, lines 62–81. -/
def dl_layer_mapping : List (String × String) :=
  [("actor.0.weight", "actor_fc1_weight"), ("actor.0.bias", "actor_fc1_bias"),
   ("actor.2.weight", "actor_fc2_weight"), ("actor.2.bias", "actor_fc2_bias"),
   ("actor.4.weight", "actor_fc3_weight"), ("actor.4.bias", "actor_fc3_bias"),
   ("actor_mean.weight", "actor_mean_weight"), ("actor_mean.bias", "actor_mean_bias"),
   ("actor_logstd", "actor_logstd"),
   ("critic.0.weight", "critic_fc1_weight"), ("critic.0.bias", "critic_fc1_bias"),
   ("critic.2.weight", "critic_fc2_weight"), ("critic.2.bias", "critic_fc2_bias"),
   ("critic.4.weight", "critic_fc3_weight"), ("critic.4.bias", "critic_fc3_bias")]

/-- The source keys of `dl_layer_mapping` whose role is a dense layer's
kernel or bias — every entry except the stand-alone `actor_logstd`. -/
def kernel_bias_role_keys : List String :=
  ["actor.0.weight", "actor.0.bias", "actor.2.weight", "actor.2.bias",
   "actor.4.weight", "actor.4.bias", "actor_mean.weight", "actor_mean.bias",
   "critic.0.weight", "critic.0.bias", "critic.2.weight", "critic.2.bias",
   "critic.4.weight", "critic.4.bias"]

/-- Lines 84–88 of `download-pretrained-humanoid.py`
(`convert_to_tfjs_format`): each tensor of the state dict is serialized
under its mapped name (or its own name when unmapped), with the values
copied through unchanged — no transpose is applied. -/
def convert_to_tfjs_format (sd : StateDict) : List (String × Tensor) :=
  sd.map (fun kt => ((dl_layer_mapping.lookup kt.1).getD kt.1, kt.2))

/-- A key that is not a kernel/bias-role key of the download mapping is
serialized under its own name. -/
lemma dl_save_key_of_not_role (k : String) (hk : k ∉ kernel_bias_role_keys) :
    (dl_layer_mapping.lookup k).getD k = k := by
  by_cases hls : k = "actor_logstd"
  · subst hls; decide
  · simp only [kernel_bias_role_keys, List.mem_cons, List.not_mem_nil, or_false,
      not_or] at hk
    obtain ⟨n1, n2, n3, n4, n5, n6, n7, n8, n9, n10, n11, n12, n13, n14⟩ := hk
    have e1 := beq_eq_false_iff_ne.mpr n1
    have e2 := beq_eq_false_iff_ne.mpr n2
    have e3 := beq_eq_false_iff_ne.mpr n3
    have e4 := beq_eq_false_iff_ne.mpr n4
    have e5 := beq_eq_false_iff_ne.mpr n5
    have e6 := beq_eq_false_iff_ne.mpr n6
    have e7 := beq_eq_false_iff_ne.mpr n7
    have e8 := beq_eq_false_iff_ne.mpr n8
    have e9 := beq_eq_false_iff_ne.mpr n9
    have e10 := beq_eq_false_iff_ne.mpr n10
    have e11 := beq_eq_false_iff_ne.mpr n11
    have e12 := beq_eq_false_iff_ne.mpr n12
    have e13 := beq_eq_false_iff_ne.mpr n13
    have e14 := beq_eq_false_iff_ne.mpr n14
    have els := beq_eq_false_iff_ne.mpr hls
    simp only [dl_layer_mapping, List.lookup, e1, e2, e3, e4, e5, e6, e7, e8,
      e9, e10, e11, e12, e13, e14, els]
    rfl

/-! ### Stage lemmas for `extract_weights_to_json` -/

lemma actorWeights_ok (sd : StateDict) (w0 w2 w4 : List (List ℚ)) (b0 b2 b4 : List ℚ)
    (h0 : sd.lookup "actor_mean.0.weight" = some (.t2 w0))
    (h1 : sd.lookup "actor_mean.0.bias" = some (.t1 b0))
    (h2 : sd.lookup "actor_mean.2.weight" = some (.t2 w2))
    (h3 : sd.lookup "actor_mean.2.bias" = some (.t1 b2))
    (h4 : sd.lookup "actor_mean.4.weight" = some (.t2 w4))
    (h5 : sd.lookup "actor_mean.4.bias" = some (.t1 b4)) :
    actorWeights sd = .ok
      [("dense_1_kernel", .t2 (transposeMat w0)), ("dense_1_bias", .t1 b0),
       ("dense_2_kernel", .t2 (transposeMat w2)), ("dense_2_bias", .t1 b2),
       ("output_kernel", .t2 (transposeMat w4)), ("output_bias", .t1 b4)] := by
  unfold actorWeights getItem
  rw [h0, h1, h2, h3, h4, h5]
  rfl

lemma criticWeights_ok (sd : StateDict) (w0 w2 w4 : List (List ℚ)) (b0 b2 b4 : List ℚ)
    (h0 : sd.lookup "critic.0.weight" = some (.t2 w0))
    (h1 : sd.lookup "critic.0.bias" = some (.t1 b0))
    (h2 : sd.lookup "critic.2.weight" = some (.t2 w2))
    (h3 : sd.lookup "critic.2.bias" = some (.t1 b2))
    (h4 : sd.lookup "critic.4.weight" = some (.t2 w4))
    (h5 : sd.lookup "critic.4.bias" = some (.t1 b4)) :
    criticWeights sd = .ok
      [("dense_1_kernel", .t2 (transposeMat w0)), ("dense_1_bias", .t1 b0),
       ("dense_2_kernel", .t2 (transposeMat w2)), ("dense_2_bias", .t1 b2),
       ("output_kernel", .t2 (transposeMat w4)), ("output_bias", .t1 b4)] := by
  unfold criticWeights getItem
  rw [h0, h1, h2, h3, h4, h5]
  rfl

lemma extract_ok (sd : StateDict) (aw cw : List (String × Tensor)) (ls : Tensor)
    (haw : actorWeights sd = .ok aw) (hcw : criticWeights sd = .ok cw)
    (hls : sd.lookup "actor_logstd" = some ls) :
    extract_weights_to_json sd =
      ([("actor_weights.json", .weights aw),
        ("critic_weights.json", .weights cw),
        ("actor_logstd.json", .logstd ls.shape ls),
        ("model_info.json", .info model_info)], none) := by
  unfold extract_weights_to_json getItem
  rw [haw, hcw, hls]
  rfl

lemma extract_fail_logstd (sd : StateDict) (aw cw : List (String × Tensor))
    (haw : actorWeights sd = .ok aw) (hcw : criticWeights sd = .ok cw)
    (hls : sd.lookup "actor_logstd" = none) :
    extract_weights_to_json sd =
      ([("actor_weights.json", .weights aw),
        ("critic_weights.json", .weights cw)],
        some (.keyError "actor_logstd")) := by
  unfold extract_weights_to_json getItem
  rw [haw, hcw, hls]
  rfl

/-- The exception produced by `extract_weights_to_json` is exactly the
`KeyError` of the first required key (in program order) absent from the
checkpoint, and there is no exception when none is absent. -/
lemma extract_snd_eq (sd : StateDict) :
    (extract_weights_to_json sd).2 = (firstMissing sd).map PyError.keyError := by
  cases h1 : sd.lookup "actor_mean.0.weight" with
  | none => simp [extract_weights_to_json, actorWeights, getItem, firstMissing,
      requiredKeys, List.find?, h1]
  | some w0 =>
  cases h2 : sd.lookup "actor_mean.0.bias" with
  | none => simp [extract_weights_to_json, actorWeights, getItem, firstMissing,
      requiredKeys, List.find?, h1, h2]
  | some b0 =>
  cases h3 : sd.lookup "actor_mean.2.weight" with
  | none => simp [extract_weights_to_json, actorWeights, getItem, firstMissing,
      requiredKeys, List.find?, h1, h2, h3]
  | some w2 =>
  cases h4 : sd.lookup "actor_mean.2.bias" with
  | none => simp [extract_weights_to_json, actorWeights, getItem, firstMissing,
      requiredKeys, List.find?, h1, h2, h3, h4]
  | some b2 =>
  cases h5 : sd.lookup "actor_mean.4.weight" with
  | none => simp [extract_weights_to_json, actorWeights, getItem, firstMissing,
      requiredKeys, List.find?, h1, h2, h3, h4, h5]
  | some w4 =>
  cases h6 : sd.lookup "actor_mean.4.bias" with
  | none => simp [extract_weights_to_json, actorWeights, getItem, firstMissing,
      requiredKeys, List.find?, h1, h2, h3, h4, h5, h6]
  | some b4 =>
  cases h7 : sd.lookup "critic.0.weight" with
  | none => simp [extract_weights_to_json, actorWeights, criticWeights, getItem,
      firstMissing, requiredKeys, List.find?, h1, h2, h3, h4, h5, h6, h7]
  | some v0 =>
  cases h8 : sd.lookup "critic.0.bias" with
  | none => simp [extract_weights_to_json, actorWeights, criticWeights, getItem,
      firstMissing, requiredKeys, List.find?, h1, h2, h3, h4, h5, h6, h7, h8]
  | some c0 =>
  cases h9 : sd.lookup "critic.2.weight" with
  | none => simp [extract_weights_to_json, actorWeights, criticWeights, getItem,
      firstMissing, requiredKeys, List.find?, h1, h2, h3, h4, h5, h6, h7, h8, h9]
  | some v2 =>
  cases h10 : sd.lookup "critic.2.bias" with
  | none => simp [extract_weights_to_json, actorWeights, criticWeights, getItem,
      firstMissing, requiredKeys, List.find?, h1, h2, h3, h4, h5, h6, h7, h8, h9,
      h10]
  | some c2 =>
  cases h11 : sd.lookup "critic.4.weight" with
  | none => simp [extract_weights_to_json, actorWeights, criticWeights, getItem,
      firstMissing, requiredKeys, List.find?, h1, h2, h3, h4, h5, h6, h7, h8, h9,
      h10, h11]
  | some v4 =>
  cases h12 : sd.lookup "critic.4.bias" with
  | none => simp [extract_weights_to_json, actorWeights, criticWeights, getItem,
      firstMissing, requiredKeys, List.find?, h1, h2, h3, h4, h5, h6, h7, h8, h9,
      h10, h11, h12]
  | some c4 =>
  cases h13 : sd.lookup "actor_logstd" with
  | none => simp [extract_weights_to_json, actorWeights, criticWeights, getItem,
      firstMissing, requiredKeys, List.find?, h1, h2, h3, h4, h5, h6, h7, h8, h9,
      h10, h11, h12, h13]
  | some ls => simp [extract_weights_to_json, actorWeights, criticWeights, getItem,
      firstMissing, requiredKeys, List.find?, h1, h2, h3, h4, h5, h6, h7, h8, h9,
      h10, h11, h12, h13]

/-! ### Concrete checkpoints used as witnesses and counterexamples -/

/-- A small well-formed checkpoint (all required keys, rectangular
arrays). -/
def cpGood : StateDict :=
  [("actor_mean.0.weight", .t2 [[1, 2]]), ("actor_mean.0.bias", .t1 [3]),
   ("actor_mean.2.weight", .t2 [[4]]), ("actor_mean.2.bias", .t1 [5]),
   ("actor_mean.4.weight", .t2 [[6]]), ("actor_mean.4.bias", .t1 [7]),
   ("critic.0.weight", .t2 [[8], [9]]), ("critic.0.bias", .t1 [10, 11]),
   ("critic.2.weight", .t2 [[12, 13]]), ("critic.2.bias", .t1 [14]),
   ("critic.4.weight", .t2 [[15]]), ("critic.4.bias", .t1 [16]),
   ("actor_logstd", .t1 [0])]

/-- `cpGood` with the key `actor_mean.4.bias` removed. -/
def cpMissing : StateDict :=
  [("actor_mean.0.weight", .t2 [[1, 2]]), ("actor_mean.0.bias", .t1 [3]),
   ("actor_mean.2.weight", .t2 [[4]]), ("actor_mean.2.bias", .t1 [5]),
   ("actor_mean.4.weight", .t2 [[6]]),
   ("critic.0.weight", .t2 [[8], [9]]), ("critic.0.bias", .t1 [10, 11]),
   ("critic.2.weight", .t2 [[12, 13]]), ("critic.2.bias", .t1 [14]),
   ("critic.4.weight", .t2 [[15]]), ("critic.4.bias", .t1 [16]),
   ("actor_logstd", .t1 [0])]

/-- `cpGood` with the key `actor_logstd` removed. -/
def cpNoLogstd : StateDict :=
  [("actor_mean.0.weight", .t2 [[1, 2]]), ("actor_mean.0.bias", .t1 [3]),
   ("actor_mean.2.weight", .t2 [[4]]), ("actor_mean.2.bias", .t1 [5]),
   ("actor_mean.4.weight", .t2 [[6]]), ("actor_mean.4.bias", .t1 [7]),
   ("critic.0.weight", .t2 [[8], [9]]), ("critic.0.bias", .t1 [10, 11]),
   ("critic.2.weight", .t2 [[12, 13]]), ("critic.2.bias", .t1 [14]),
   ("critic.4.weight", .t2 [[15]]), ("critic.4.bias", .t1 [16])]

/-- A checkpoint with every required key present but several declared
shape invariants violated: `actor_mean.2.weight` is `(1, 3)` while the
previous layer has one output (chain mismatch); `actor_mean.2.bias` has
length 2 while its weight has one row (bias mismatch); and
`actor_mean.4.weight` is 1-dimensional (dimensionality violation). -/
def cpBadShapes : StateDict :=
  [("actor_mean.0.weight", .t2 [[1, 2]]), ("actor_mean.0.bias", .t1 [1]),
   ("actor_mean.2.weight", .t2 [[1, 2, 3]]), ("actor_mean.2.bias", .t1 [1, 2]),
   ("actor_mean.4.weight", .t1 [1]), ("actor_mean.4.bias", .t1 [1]),
   ("critic.0.weight", .t2 [[1]]), ("critic.0.bias", .t1 [1]),
   ("critic.2.weight", .t2 [[1]]), ("critic.2.bias", .t1 [1]),
   ("critic.4.weight", .t2 [[1]]), ("critic.4.bias", .t1 [1]),
   ("actor_logstd", .t1 [0])]

/-! ### Claims -/

/-- Claim C2 (corrected).  Conversion on a checkpoint that lacks a
required source key fails with Python's built-in `KeyError` naming the
first absent key in program order — not with a `MissingParameterError`
class, which does not exist in the code — and completes with no
exception when every required key is present. -/
theorem convert_error_is_keyError_of_first_missing_key (sd : StateDict) :
    (extract_weights_to_json sd).2 = (firstMissing sd).map PyError.keyError :=
  extract_snd_eq sd

/-- Counterexample to claim C2 as stated: on a checkpoint lacking
`actor_mean.4.bias`, conversion raises `KeyError` naming that key, which
is not a `MissingParameterError`. -/
theorem missing_key_keyError_counterexample :
    cpMissing.lookup "actor_mean.4.bias" = none
    ∧ (extract_weights_to_json cpMissing).2
        = some (PyError.keyError "actor_mean.4.bias")
    ∧ PyError.keyError "actor_mean.4.bias"
        ≠ PyError.missingParameterError "actor_mean.4.bias" := by
  decide

/-- Claim C3 (corrected).  The converter performs no shape validation:
whenever every required key is present, conversion completes with no
exception, regardless of any chain mismatch, dimensionality mismatch or
bias-length mismatch among the arrays; in particular no
`ShapeMismatchError` is ever raised. -/
theorem convert_ignores_shapes (sd : StateDict)
    (h : ∀ k ∈ requiredKeys, (sd.lookup k).isSome) :
    (extract_weights_to_json sd).2 = none := by
  have hfm : firstMissing sd = none := by
    apply List.find?_eq_none.mpr
    intro k hk
    have hs := h k hk
    cases hcase : sd.lookup k with
    | none => rw [hcase] at hs; simp at hs
    | some t => simp [hcase]
  rw [extract_snd_eq, hfm]
  rfl

/-- Witness for `convert_ignores_shapes` at the shape-violating
checkpoint `cpBadShapes`. -/
theorem convert_ignores_shapes_witness :
    (extract_weights_to_json cpBadShapes).2 = none :=
  convert_ignores_shapes cpBadShapes (by decide)

/-- Counterexample to claim C3 as stated: `cpBadShapes` contains a
1-dimensional weight-role array, a bias of length 2 under a weight with
one row, and a chain mismatch, yet conversion completes with no
exception — no `ShapeMismatchError` is raised. -/
theorem shape_violation_unchecked_counterexample :
    cpBadShapes.lookup "actor_mean.4.weight" = some (Tensor.t1 [1])
    ∧ cpBadShapes.lookup "actor_mean.2.bias" = some (Tensor.t1 [1, 2])
    ∧ cpBadShapes.lookup "actor_mean.2.weight" = some (Tensor.t2 [[1, 2, 3]])
    ∧ (Tensor.t2 [[1, 2, 3]]).shape = [1, 3]
    ∧ (extract_weights_to_json cpBadShapes).2 = none := by
  decide

/-- Claim C4 (corrected).  Conversion is not atomic with respect to
durable storage: when both weight bundles are computable but
`actor_logstd` is absent, the converter has already written
`actor_weights.json` and `critic_weights.json` before the failing read,
and those files remain. -/
theorem convert_writes_partial_output (sd : StateDict)
    (aw cw : List (String × Tensor))
    (haw : actorWeights sd = .ok aw) (hcw : criticWeights sd = .ok cw)
    (hls : sd.lookup "actor_logstd" = none) :
    extract_weights_to_json sd =
      ([("actor_weights.json", FileContent.weights aw),
        ("critic_weights.json", FileContent.weights cw)],
       some (PyError.keyError "actor_logstd")) :=
  extract_fail_logstd sd aw cw haw hcw hls

/-- Witness for `convert_writes_partial_output` at `cpNoLogstd`. -/
theorem convert_writes_partial_output_witness :
    extract_weights_to_json cpNoLogstd =
      ([("actor_weights.json", FileContent.weights
          [("dense_1_kernel", .t2 [[1], [2]]), ("dense_1_bias", .t1 [3]),
           ("dense_2_kernel", .t2 [[4]]), ("dense_2_bias", .t1 [5]),
           ("output_kernel", .t2 [[6]]), ("output_bias", .t1 [7])]),
        ("critic_weights.json", FileContent.weights
          [("dense_1_kernel", .t2 [[8, 9]]), ("dense_1_bias", .t1 [10, 11]),
           ("dense_2_kernel", .t2 [[12], [13]]), ("dense_2_bias", .t1 [14]),
           ("output_kernel", .t2 [[15]]), ("output_bias", .t1 [16])])],
       some (PyError.keyError "actor_logstd")) :=
  convert_writes_partial_output cpNoLogstd
    [("dense_1_kernel", .t2 [[1], [2]]), ("dense_1_bias", .t1 [3]),
     ("dense_2_kernel", .t2 [[4]]), ("dense_2_bias", .t1 [5]),
     ("output_kernel", .t2 [[6]]), ("output_bias", .t1 [7])]
    [("dense_1_kernel", .t2 [[8, 9]]), ("dense_1_bias", .t1 [10, 11]),
     ("dense_2_kernel", .t2 [[12], [13]]), ("dense_2_bias", .t1 [14]),
     ("output_kernel", .t2 [[15]]), ("output_bias", .t1 [16])]
    rfl rfl (by decide)

/-- Counterexample to claim C4 as stated: on `cpNoLogstd` (a checkpoint
missing `actor_logstd`) conversion fails, yet two output files have
already been written. -/
theorem atomicity_counterexample :
    (extract_weights_to_json cpNoLogstd).1.map Prod.fst
        = ["actor_weights.json", "critic_weights.json"]
    ∧ (extract_weights_to_json cpNoLogstd).2
        = some (PyError.keyError "actor_logstd") := by
  decide

/-- Claim C1 (confirmed).  For every checkpoint entry whose role is
kernel/weight (a 2-D array of shape `(out_features, in_features)`), the
converted bundle binds the corresponding canonical layer's kernel to the
exact transpose of the source array — its data is rectangular of shape
`(in_features, out_features)` and, viewed as a matrix, equals the
transpose of the source, so value `(i, j)` of the output is value
`(j, i)` of the source — while every bias-role array is passed through
unchanged, element for element. -/
theorem convert_transposes_kernels_passes_biases
    (sd : StateDict)
    (aw0 aw2 aw4 cw0 cw2 cw4 : List (List ℚ))
    (ab0 ab2 ab4 cb0 cb2 cb4 : List ℚ)
    (r1 c1 r2 c2 r3 c3 p1 q1 p2 q2 p3 q3 : Nat)
    (hl0 : sd.lookup "actor_mean.0.weight" = some (.t2 aw0))
    (hl1 : sd.lookup "actor_mean.0.bias" = some (.t1 ab0))
    (hl2 : sd.lookup "actor_mean.2.weight" = some (.t2 aw2))
    (hl3 : sd.lookup "actor_mean.2.bias" = some (.t1 ab2))
    (hl4 : sd.lookup "actor_mean.4.weight" = some (.t2 aw4))
    (hl5 : sd.lookup "actor_mean.4.bias" = some (.t1 ab4))
    (hl6 : sd.lookup "critic.0.weight" = some (.t2 cw0))
    (hl7 : sd.lookup "critic.0.bias" = some (.t1 cb0))
    (hl8 : sd.lookup "critic.2.weight" = some (.t2 cw2))
    (hl9 : sd.lookup "critic.2.bias" = some (.t1 cb2))
    (hl10 : sd.lookup "critic.4.weight" = some (.t2 cw4))
    (hl11 : sd.lookup "critic.4.bias" = some (.t1 cb4))
    (hr1 : isRect aw0 r1 c1) (hp1 : 0 < r1)
    (hr2 : isRect aw2 r2 c2) (hp2 : 0 < r2)
    (hr3 : isRect aw4 r3 c3) (hp3 : 0 < r3)
    (hq1 : isRect cw0 p1 q1) (hs1 : 0 < p1)
    (hq2 : isRect cw2 p2 q2) (hs2 : 0 < p2)
    (hq3 : isRect cw4 p3 q3) (hs3 : 0 < p3) :
    actorWeights sd = .ok
      [("dense_1_kernel", .t2 (transposeMat aw0)), ("dense_1_bias", .t1 ab0),
       ("dense_2_kernel", .t2 (transposeMat aw2)), ("dense_2_bias", .t1 ab2),
       ("output_kernel", .t2 (transposeMat aw4)), ("output_bias", .t1 ab4)]
    ∧ criticWeights sd = .ok
      [("dense_1_kernel", .t2 (transposeMat cw0)), ("dense_1_bias", .t1 cb0),
       ("dense_2_kernel", .t2 (transposeMat cw2)), ("dense_2_bias", .t1 cb2),
       ("output_kernel", .t2 (transposeMat cw4)), ("output_bias", .t1 cb4)]
    ∧ isRect (transposeMat aw0) c1 r1
    ∧ toMatrix (transposeMat aw0) c1 r1 = (toMatrix aw0 r1 c1).transpose
    ∧ isRect (transposeMat aw2) c2 r2
    ∧ toMatrix (transposeMat aw2) c2 r2 = (toMatrix aw2 r2 c2).transpose
    ∧ isRect (transposeMat aw4) c3 r3
    ∧ toMatrix (transposeMat aw4) c3 r3 = (toMatrix aw4 r3 c3).transpose
    ∧ isRect (transposeMat cw0) q1 p1
    ∧ toMatrix (transposeMat cw0) q1 p1 = (toMatrix cw0 p1 q1).transpose
    ∧ isRect (transposeMat cw2) q2 p2
    ∧ toMatrix (transposeMat cw2) q2 p2 = (toMatrix cw2 p2 q2).transpose
    ∧ isRect (transposeMat cw4) q3 p3
    ∧ toMatrix (transposeMat cw4) q3 p3 = (toMatrix cw4 p3 q3).transpose :=
  ⟨actorWeights_ok sd aw0 aw2 aw4 ab0 ab2 ab4 hl0 hl1 hl2 hl3 hl4 hl5,
   criticWeights_ok sd cw0 cw2 cw4 cb0 cb2 cb4 hl6 hl7 hl8 hl9 hl10 hl11,
   transposeMat_isRect aw0 r1 c1 hr1 hp1, toMatrix_transposeMat aw0 r1 c1 hr1 hp1,
   transposeMat_isRect aw2 r2 c2 hr2 hp2, toMatrix_transposeMat aw2 r2 c2 hr2 hp2,
   transposeMat_isRect aw4 r3 c3 hr3 hp3, toMatrix_transposeMat aw4 r3 c3 hr3 hp3,
   transposeMat_isRect cw0 p1 q1 hq1 hs1, toMatrix_transposeMat cw0 p1 q1 hq1 hs1,
   transposeMat_isRect cw2 p2 q2 hq2 hs2, toMatrix_transposeMat cw2 p2 q2 hq2 hs2,
   transposeMat_isRect cw4 p3 q3 hq3 hs3, toMatrix_transposeMat cw4 p3 q3 hq3 hs3⟩

/-- Witness for `convert_transposes_kernels_passes_biases` at `cpGood`. -/
theorem convert_transposes_kernels_passes_biases_witness :
    actorWeights cpGood = .ok
      [("dense_1_kernel", .t2 (transposeMat [[1, 2]])), ("dense_1_bias", .t1 [3]),
       ("dense_2_kernel", .t2 (transposeMat [[4]])), ("dense_2_bias", .t1 [5]),
       ("output_kernel", .t2 (transposeMat [[6]])), ("output_bias", .t1 [7])]
    ∧ criticWeights cpGood = .ok
      [("dense_1_kernel", .t2 (transposeMat [[8], [9]])), ("dense_1_bias", .t1 [10, 11]),
       ("dense_2_kernel", .t2 (transposeMat [[12, 13]])), ("dense_2_bias", .t1 [14]),
       ("output_kernel", .t2 (transposeMat [[15]])), ("output_bias", .t1 [16])]
    ∧ isRect (transposeMat [[1, 2]]) 2 1
    ∧ toMatrix (transposeMat [[1, 2]]) 2 1 = (toMatrix [[1, 2]] 1 2).transpose
    ∧ isRect (transposeMat [[4]]) 1 1
    ∧ toMatrix (transposeMat [[4]]) 1 1 = (toMatrix [[4]] 1 1).transpose
    ∧ isRect (transposeMat [[6]]) 1 1
    ∧ toMatrix (transposeMat [[6]]) 1 1 = (toMatrix [[6]] 1 1).transpose
    ∧ isRect (transposeMat [[8], [9]]) 1 2
    ∧ toMatrix (transposeMat [[8], [9]]) 1 2 = (toMatrix [[8], [9]] 2 1).transpose
    ∧ isRect (transposeMat [[12, 13]]) 2 1
    ∧ toMatrix (transposeMat [[12, 13]]) 2 1 = (toMatrix [[12, 13]] 1 2).transpose
    ∧ isRect (transposeMat [[15]]) 1 1
    ∧ toMatrix (transposeMat [[15]]) 1 1 = (toMatrix [[15]] 1 1).transpose :=
  convert_transposes_kernels_passes_biases cpGood
    [[1, 2]] [[4]] [[6]] [[8], [9]] [[12, 13]] [[15]]
    [3] [5] [7] [10, 11] [14] [16]
    1 2 1 1 1 1 2 1 1 2 1 1
    rfl rfl rfl rfl rfl rfl rfl rfl rfl rfl rfl rfl
    (by decide) (by decide) (by decide) (by decide) (by decide) (by decide)
    (by decide) (by decide) (by decide) (by decide) (by decide) (by decide)

/-- A checkpoint with the architecture's declared output widths: the
actor's final layer has 17 outputs and the critic's final layer one. -/
def cpArch : StateDict :=
  [("actor_mean.0.weight", .t2 [[1, 2]]), ("actor_mean.0.bias", .t1 [3]),
   ("actor_mean.2.weight", .t2 [[4]]), ("actor_mean.2.bias", .t1 [5]),
   ("actor_mean.4.weight", .t2 [[1], [2], [3], [4], [5], [6], [7], [8], [9],
      [10], [11], [12], [13], [14], [15], [16], [17]]),
   ("actor_mean.4.bias",
      .t1 [1, 2, 3, 4, 5, 6, 7, 8, 9, 10, 11, 12, 13, 14, 15, 16, 17]),
   ("critic.0.weight", .t2 [[6, 7]]), ("critic.0.bias", .t1 [8]),
   ("critic.2.weight", .t2 [[9]]), ("critic.2.bias", .t1 [10]),
   ("critic.4.weight", .t2 [[11]]), ("critic.4.bias", .t1 [12]),
   ("actor_logstd", .t1 [0])]

/-- Claim C5 (confirmed).  For every valid checkpoint (source shapes
rectangular and chained), the converted bundle satisfies the chaining
invariant: each layer's kernel second dimension equals its bias length,
consecutive kernels chain (`kernel[i].shape[1] = kernel[i+1].shape[0]`,
visible below as the shared dimension variables `d1`, `d2`, `e1`, `e2`),
and the final kernel's second dimension is `action_dim = 17` for the
actor and `1` for the critic. -/
theorem converted_bundle_chains
    (sd : StateDict)
    (aw0 aw2 aw4 cw0 cw2 cw4 : List (List ℚ))
    (ab0 ab2 ab4 cb0 cb2 cb4 : List ℚ)
    (d0 d1 d2 e1 e2 : Nat)
    (hl0 : sd.lookup "actor_mean.0.weight" = some (.t2 aw0))
    (hl1 : sd.lookup "actor_mean.0.bias" = some (.t1 ab0))
    (hl2 : sd.lookup "actor_mean.2.weight" = some (.t2 aw2))
    (hl3 : sd.lookup "actor_mean.2.bias" = some (.t1 ab2))
    (hl4 : sd.lookup "actor_mean.4.weight" = some (.t2 aw4))
    (hl5 : sd.lookup "actor_mean.4.bias" = some (.t1 ab4))
    (hl6 : sd.lookup "critic.0.weight" = some (.t2 cw0))
    (hl7 : sd.lookup "critic.0.bias" = some (.t1 cb0))
    (hl8 : sd.lookup "critic.2.weight" = some (.t2 cw2))
    (hl9 : sd.lookup "critic.2.bias" = some (.t1 cb2))
    (hl10 : sd.lookup "critic.4.weight" = some (.t2 cw4))
    (hl11 : sd.lookup "critic.4.bias" = some (.t1 cb4))
    (ha0 : isRect aw0 d1 d0) (hb0 : ab0.length = d1)
    (ha2 : isRect aw2 d2 d1) (hb2 : ab2.length = d2)
    (ha4 : isRect aw4 17 d2) (hb4 : ab4.length = 17)
    (hc0 : isRect cw0 e1 d0) (hd0 : cb0.length = e1)
    (hc2 : isRect cw2 e2 e1) (hd2 : cb2.length = e2)
    (hc4 : isRect cw4 1 e2) (hd4 : cb4.length = 1)
    (hp0 : 0 < d0) (hp1 : 0 < d1) (hp2 : 0 < d2)
    (hpe1 : 0 < e1) (hpe2 : 0 < e2) :
    actorWeights sd = .ok
      [("dense_1_kernel", .t2 (transposeMat aw0)), ("dense_1_bias", .t1 ab0),
       ("dense_2_kernel", .t2 (transposeMat aw2)), ("dense_2_bias", .t1 ab2),
       ("output_kernel", .t2 (transposeMat aw4)), ("output_bias", .t1 ab4)]
    ∧ criticWeights sd = .ok
      [("dense_1_kernel", .t2 (transposeMat cw0)), ("dense_1_bias", .t1 cb0),
       ("dense_2_kernel", .t2 (transposeMat cw2)), ("dense_2_bias", .t1 cb2),
       ("output_kernel", .t2 (transposeMat cw4)), ("output_bias", .t1 cb4)]
    ∧ (Tensor.t2 (transposeMat aw0)).shape = [d0, d1]
    ∧ (Tensor.t1 ab0).shape = [d1]
    ∧ (Tensor.t2 (transposeMat aw2)).shape = [d1, d2]
    ∧ (Tensor.t1 ab2).shape = [d2]
    ∧ (Tensor.t2 (transposeMat aw4)).shape = [d2, 17]
    ∧ (Tensor.t1 ab4).shape = [17]
    ∧ model_info.action_dim = 17
    ∧ (Tensor.t2 (transposeMat cw0)).shape = [d0, e1]
    ∧ (Tensor.t1 cb0).shape = [e1]
    ∧ (Tensor.t2 (transposeMat cw2)).shape = [e1, e2]
    ∧ (Tensor.t1 cb2).shape = [e2]
    ∧ (Tensor.t2 (transposeMat cw4)).shape = [e2, 1]
    ∧ (Tensor.t1 cb4).shape = [1] := by
  refine ⟨actorWeights_ok sd aw0 aw2 aw4 ab0 ab2 ab4 hl0 hl1 hl2 hl3 hl4 hl5,
    criticWeights_ok sd cw0 cw2 cw4 cb0 cb2 cb4 hl6 hl7 hl8 hl9 hl10 hl11,
    shape_t2_transposeMat aw0 d1 d0 ha0 hp1 hp0, ?_,
    shape_t2_transposeMat aw2 d2 d1 ha2 hp2 hp1, ?_,
    shape_t2_transposeMat aw4 17 d2 ha4 (by norm_num) hp2, ?_,
    rfl,
    shape_t2_transposeMat cw0 e1 d0 hc0 hpe1 hp0, ?_,
    shape_t2_transposeMat cw2 e2 e1 hc2 hpe2 hpe1, ?_,
    shape_t2_transposeMat cw4 1 e2 hc4 (by norm_num) hpe2, ?_⟩
  · simp [Tensor.shape, hb0]
  · simp [Tensor.shape, hb2]
  · simp [Tensor.shape, hb4]
  · simp [Tensor.shape, hd0]
  · simp [Tensor.shape, hd2]
  · simp [Tensor.shape, hd4]

/-- Witness for `converted_bundle_chains` at `cpArch`. -/
theorem converted_bundle_chains_witness :
    actorWeights cpArch = .ok
      [("dense_1_kernel", .t2 (transposeMat [[1, 2]])), ("dense_1_bias", .t1 [3]),
       ("dense_2_kernel", .t2 (transposeMat [[4]])), ("dense_2_bias", .t1 [5]),
       ("output_kernel", .t2 (transposeMat [[1], [2], [3], [4], [5], [6], [7],
          [8], [9], [10], [11], [12], [13], [14], [15], [16], [17]])),
       ("output_bias",
          .t1 [1, 2, 3, 4, 5, 6, 7, 8, 9, 10, 11, 12, 13, 14, 15, 16, 17])]
    ∧ criticWeights cpArch = .ok
      [("dense_1_kernel", .t2 (transposeMat [[6, 7]])), ("dense_1_bias", .t1 [8]),
       ("dense_2_kernel", .t2 (transposeMat [[9]])), ("dense_2_bias", .t1 [10]),
       ("output_kernel", .t2 (transposeMat [[11]])), ("output_bias", .t1 [12])]
    ∧ (Tensor.t2 (transposeMat [[1, 2]])).shape = [2, 1]
    ∧ (Tensor.t1 [3]).shape = [1]
    ∧ (Tensor.t2 (transposeMat [[4]])).shape = [1, 1]
    ∧ (Tensor.t1 [5]).shape = [1]
    ∧ (Tensor.t2 (transposeMat [[1], [2], [3], [4], [5], [6], [7], [8], [9],
        [10], [11], [12], [13], [14], [15], [16], [17]])).shape = [1, 17]
    ∧ (Tensor.t1 [1, 2, 3, 4, 5, 6, 7, 8, 9, 10, 11, 12, 13, 14, 15, 16, 17]).shape = [17]
    ∧ model_info.action_dim = 17
    ∧ (Tensor.t2 (transposeMat [[6, 7]])).shape = [2, 1]
    ∧ (Tensor.t1 [8]).shape = [1]
    ∧ (Tensor.t2 (transposeMat [[9]])).shape = [1, 1]
    ∧ (Tensor.t1 [10]).shape = [1]
    ∧ (Tensor.t2 (transposeMat [[11]])).shape = [1, 1]
    ∧ (Tensor.t1 [12]).shape = [1] :=
  converted_bundle_chains cpArch
    [[1, 2]] [[4]]
    [[1], [2], [3], [4], [5], [6], [7], [8], [9], [10], [11], [12], [13], [14],
     [15], [16], [17]]
    [[6, 7]] [[9]] [[11]]
    [3] [5] [1, 2, 3, 4, 5, 6, 7, 8, 9, 10, 11, 12, 13, 14, 15, 16, 17]
    [8] [10] [12]
    2 1 1 1 1
    rfl rfl rfl rfl rfl rfl rfl rfl rfl rfl rfl rfl
    (by decide) (by decide) (by decide) (by decide) (by decide) (by decide)
    (by decide) (by decide) (by decide) (by decide) (by decide) (by decide)
    (by decide) (by decide) (by decide) (by decide) (by decide)

/-- Claim C6 (confirmed).  The forward pass over a converted bundle
computes `h = activation(h · kernel + bias)` for every layer except the
last, with the element-wise activation applied between layers, and the
final layer applies kernel and bias with no activation: over the bundle
kernels (the transposed source weights), the spec's layer-by-layer
forward pass coincides with the source's `test_weights` computation, for
every activation function and input vector.  (The concrete activation is
the transcendental `tanh`, declared as `"tanh"` in `model_info`; the
layer structure proved here is independent of it.) -/
theorem forward_pass_layer_structure
    (sd : StateDict) (w0 w2 w4 : List (List ℚ)) (b0 b2 b4 : List ℚ)
    (r1 c1 r2 c2 r3 c3 : Nat)
    (hl0 : sd.lookup "actor_mean.0.weight" = some (.t2 w0))
    (hl1 : sd.lookup "actor_mean.0.bias" = some (.t1 b0))
    (hl2 : sd.lookup "actor_mean.2.weight" = some (.t2 w2))
    (hl3 : sd.lookup "actor_mean.2.bias" = some (.t1 b2))
    (hl4 : sd.lookup "actor_mean.4.weight" = some (.t2 w4))
    (hl5 : sd.lookup "actor_mean.4.bias" = some (.t1 b4))
    (h0 : isRect w0 r1 c1) (h0r : 0 < r1) (h0c : 0 < c1)
    (h2 : isRect w2 r2 c2) (h2r : 0 < r2) (h2c : 0 < c2)
    (h4 : isRect w4 r3 c3) (h4r : 0 < r3) (h4c : 0 < c3)
    (act : ℚ → ℚ) (x : List ℚ) :
    actorWeights sd = .ok
      [("dense_1_kernel", .t2 (transposeMat w0)), ("dense_1_bias", .t1 b0),
       ("dense_2_kernel", .t2 (transposeMat w2)), ("dense_2_bias", .t1 b2),
       ("output_kernel", .t2 (transposeMat w4)), ("output_bias", .t1 b4)]
    ∧ forward_spec act
        [(transposeMat w0, b0), (transposeMat w2, b2), (transposeMat w4, b4)] x
      = test_weights_actor act w0 b0 w2 b2 w4 b4 x := by
  refine ⟨actorWeights_ok sd w0 w2 w4 b0 b2 b4 hl0 hl1 hl2 hl3 hl4 hl5, ?_⟩
  simp only [forward_spec, test_weights_actor]
  rw [vecMatMul_transposeMat w0 r1 c1 h0 h0r h0c,
      vecMatMul_transposeMat w2 r2 c2 h2 h2r h2c,
      vecMatMul_transposeMat w4 r3 c3 h4 h4r h4c]

/-- Witness for `forward_pass_layer_structure` at `cpGood`. -/
theorem forward_pass_layer_structure_witness :
    actorWeights cpGood = .ok
      [("dense_1_kernel", .t2 (transposeMat [[1, 2]])), ("dense_1_bias", .t1 [3]),
       ("dense_2_kernel", .t2 (transposeMat [[4]])), ("dense_2_bias", .t1 [5]),
       ("output_kernel", .t2 (transposeMat [[6]])), ("output_bias", .t1 [7])]
    ∧ forward_spec (fun q => q * q)
        [(transposeMat [[1, 2]], [3]), (transposeMat [[4]], [5]),
         (transposeMat [[6]], [7])] [1, 1]
      = test_weights_actor (fun q => q * q) [[1, 2]] [3] [[4]] [5] [[6]] [7] [1, 1] :=
  forward_pass_layer_structure cpGood [[1, 2]] [[4]] [[6]] [3] [5] [7]
    1 2 1 1 1 1
    rfl rfl rfl rfl rfl rfl
    (by decide) (by decide) (by decide) (by decide) (by decide) (by decide)
    (by decide) (by decide) (by decide)
    (fun q => q * q) [1, 1]

/-- Claim C7 (confirmed).  When a `logstd` auxiliary vector is present,
stochastic action sampling computes `std = exp(logstd)` element-wise and
draws `action = mean + std ⊙ noise` with the supplied noise sample; in
particular, for zero noise the sampled action equals the mean. -/
theorem gaussian_sampling_formula (logstd mean noise : List ℝ) (i : Nat)
    (hl : logstd.length = mean.length) (hn : noise.length = mean.length)
    (hi : i < mean.length) :
    (sampled_action logstd mean noise).getD i 0
        = mean.getD i 0 + Real.exp (logstd.getD i 0) * noise.getD i 0
    ∧ sampled_action logstd mean (List.replicate mean.length 0) = mean := by
  constructor
  · have hstd : (actor_std logstd).length = mean.length := by
      simp [actor_std, hl]
    have hlen : (sampled_action logstd mean noise).length = mean.length := by
      simp [sampled_action, actor_std, hl, hn]
    rw [List.getD_eq_getElem _ _ (by rw [hlen]; exact hi),
        List.getD_eq_getElem _ _ hi,
        List.getD_eq_getElem _ _ (by rw [hl]; exact hi),
        List.getD_eq_getElem _ _ (by rw [hn]; exact hi)]
    simp [sampled_action, actor_std, List.getElem_zipWith]
  · unfold sampled_action
    rw [zipWith_mul_replicate_zero]
    have hm : min (actor_std logstd).length mean.length = mean.length := by
      simp [actor_std, hl]
    rw [hm, zipWith_add_replicate_zero]

/-- Witness for `gaussian_sampling_formula` at concrete vectors. -/
theorem gaussian_sampling_formula_witness :
    (sampled_action [0] [5] [3]).getD 0 0 = (5 : ℝ) + Real.exp 0 * 3
    ∧ sampled_action [0] [5] (List.replicate 1 0) = [5] :=
  gaussian_sampling_formula [0] [5] [3] 0 (by simp) (by simp) (by simp)

/-- Claim C8 (confirmed).  Every checkpoint key that does not match a
kernel-role or bias-role entry of the layer mapping is copied through
with its values unchanged and surfaced as a top-level field of the
bundle, not nested under any layer: in `convert_to_tfjs_format` any
non-kernel/bias key keeps its own name and tensor at top level, and in
`extract_weights_to_json` the stand-alone `actor_logstd` vector is
written unchanged to its own top-level file. -/
theorem aux_keys_copied_through
    (sd sd2 : StateDict) (k : String) (t : Tensor)
    (hmem : (k, t) ∈ sd) (hrole : k ∉ kernel_bias_role_keys)
    (aw cw : List (String × Tensor)) (ls : Tensor)
    (haw : actorWeights sd2 = .ok aw) (hcw : criticWeights sd2 = .ok cw)
    (hls : sd2.lookup "actor_logstd" = some ls) :
    (k, t) ∈ convert_to_tfjs_format sd
    ∧ ("actor_logstd.json", FileContent.logstd ls.shape ls)
        ∈ (extract_weights_to_json sd2).1 := by
  constructor
  · have h2 : ((dl_layer_mapping.lookup k).getD k, t)
        ∈ sd.map (fun kt : String × Tensor =>
            ((dl_layer_mapping.lookup kt.1).getD kt.1, kt.2)) :=
      List.mem_map_of_mem _ hmem
    rw [dl_save_key_of_not_role k hrole] at h2
    exact h2
  · rw [extract_ok sd2 aw cw ls haw hcw hls]
    simp

/-- Witness for `aux_keys_copied_through` at a concrete extra key. -/
theorem aux_keys_copied_through_witness :
    ("my_extra", Tensor.t1 [1, 2])
        ∈ convert_to_tfjs_format [("my_extra", Tensor.t1 [1, 2])]
    ∧ ("actor_logstd.json", FileContent.logstd [1] (Tensor.t1 [0]))
        ∈ (extract_weights_to_json cpGood).1 :=
  aux_keys_copied_through [("my_extra", Tensor.t1 [1, 2])] cpGood
    "my_extra" (Tensor.t1 [1, 2]) (by decide) (by decide)
    [("dense_1_kernel", .t2 [[1], [2]]), ("dense_1_bias", .t1 [3]),
     ("dense_2_kernel", .t2 [[4]]), ("dense_2_bias", .t1 [5]),
     ("output_kernel", .t2 [[6]]), ("output_bias", .t1 [7])]
    [("dense_1_kernel", .t2 [[8, 9]]), ("dense_1_bias", .t1 [10, 11]),
     ("dense_2_kernel", .t2 [[12], [13]]), ("dense_2_bias", .t1 [14]),
     ("output_kernel", .t2 [[15]]), ("output_bias", .t1 [16])]
    (Tensor.t1 [0]) rfl rfl rfl

/-- Claim C9 (confirmed).  Conversion is deterministic: its output is a
function of the checkpoint's bindings for the required keys alone, so
two runs on the same checkpoint (or on checkpoints agreeing on those
keys) produce identical output bundles; the only randomized step in the
source (`test_weights`' sampling) is outside the converter and is
modelled with an explicit noise input (`sampled_action`). -/
theorem convert_deterministic (sd1 sd2 : StateDict)
    (h : ∀ k ∈ requiredKeys, sd1.lookup k = sd2.lookup k) :
    extract_weights_to_json sd1 = extract_weights_to_json sd2 := by
  have e1 := h "actor_mean.0.weight" (by simp [requiredKeys])
  have e2 := h "actor_mean.0.bias" (by simp [requiredKeys])
  have e3 := h "actor_mean.2.weight" (by simp [requiredKeys])
  have e4 := h "actor_mean.2.bias" (by simp [requiredKeys])
  have e5 := h "actor_mean.4.weight" (by simp [requiredKeys])
  have e6 := h "actor_mean.4.bias" (by simp [requiredKeys])
  have e7 := h "critic.0.weight" (by simp [requiredKeys])
  have e8 := h "critic.0.bias" (by simp [requiredKeys])
  have e9 := h "critic.2.weight" (by simp [requiredKeys])
  have e10 := h "critic.2.bias" (by simp [requiredKeys])
  have e11 := h "critic.4.weight" (by simp [requiredKeys])
  have e12 := h "critic.4.bias" (by simp [requiredKeys])
  have e13 := h "actor_logstd" (by simp [requiredKeys])
  unfold extract_weights_to_json actorWeights criticWeights getItem
  rw [e1, e2, e3, e4, e5, e6, e7, e8, e9, e10, e11, e12, e13]

/-- Witness for `convert_deterministic`: two syntactically different
checkpoints agreeing on the required keys convert identically. -/
theorem convert_deterministic_witness :
    extract_weights_to_json cpGood
      = extract_weights_to_json (cpGood ++ [("extra_key", Tensor.t1 [])]) :=
  convert_deterministic cpGood (cpGood ++ [("extra_key", Tensor.t1 [])]) (by decide)

/-- Claim C10 (confirmed).  The download script's converter
(`convert_to_tfjs_format`) serializes every 2-D weight tensor without
transposing it — the stored value is the source tensor itself, keeping
the `(out_features, in_features)` orientation — unlike the transposed
orientation of the Weight Bundle contract (witnessed by a matrix that
differs from its transpose). -/
theorem download_converter_no_transpose
    (sd : StateDict) (k : String) (m : List (List ℚ))
    (hmem : (k, Tensor.t2 m) ∈ sd) :
    ((dl_layer_mapping.lookup k).getD k, Tensor.t2 m) ∈ convert_to_tfjs_format sd
    ∧ convert_to_tfjs_format [("actor.0.weight", Tensor.t2 [[1, 2], [3, 4]])]
        = [("actor_fc1_weight", Tensor.t2 [[1, 2], [3, 4]])]
    ∧ transposeMat [[1, 2], [3, 4]] ≠ [[1, 2], [3, 4]] := by
  refine ⟨?_, by decide, by decide⟩
  exact List.mem_map_of_mem _ hmem

/-- Witness for `download_converter_no_transpose` at a concrete tensor. -/
theorem download_converter_no_transpose_witness :
    ((dl_layer_mapping.lookup "critic.2.weight").getD "critic.2.weight",
        Tensor.t2 [[1], [2]])
      ∈ convert_to_tfjs_format [("critic.2.weight", Tensor.t2 [[1], [2]])]
    ∧ convert_to_tfjs_format [("actor.0.weight", Tensor.t2 [[1, 2], [3, 4]])]
        = [("actor_fc1_weight", Tensor.t2 [[1, 2], [3, 4]])]
    ∧ transposeMat [[1, 2], [3, 4]] ≠ [[1, 2], [3, 4]] :=
  download_converter_no_transpose [("critic.2.weight", Tensor.t2 [[1], [2]])]
    "critic.2.weight" [[1], [2]] (by decide)

end ConvertWeights
